import Mathlib

/-!
Shallow embedding of the tray_rust scene loader (`src/scene.rs`) and the
specular glass material (`src/material/glass.rs`), together with proofs of
the specification claims about them.

Conventions of the embedding:
* Rust `f32`/`f64` values that the loader merely transports are modelled as
  rationals (`Rat`); none of the verified claims depends on floating-point
  rounding.
* Rust `panic!` / `.expect(msg)` is modelled with the `Except String` monad:
  a panic is `Except.error msg`.
* `serde_json::Value` is modelled by the inductive `JValue`; `find` is a
  first-match lookup over the object's field list.
* External components whose code is not part of the two source files
  (`Colorf`, `Instance`, `BVH`, `Camera`, meshes, …) are modelled from the
  spec as argument-recording structures; each such definition carries a
  doc comment saying so.
-/

/-- JSON values, modelling `serde_json::Value`. Objects are field lists and
`find` returns the first binding of a key. -/
inductive JValue where
  | null : JValue
  | bool (b : Bool) : JValue
  | num (q : Rat) : JValue
  | str (s : String) : JValue
  | arr (xs : List JValue) : JValue
  | obj (fields : List (String × JValue)) : JValue

namespace JValue

/-- First-match lookup in an object's field list (`Value::find`). -/
def lookupField : List (String × JValue) → String → Option JValue
  | [], _ => none
  | (k, v) :: rest, key => if k = key then some v else lookupField rest key

/-- `Value::find`: key lookup, `none` on non-objects. -/
def find : JValue → String → Option JValue
  | .obj fields, key => lookupField fields key
  | _, _ => none

/-- `Value::as_string`. -/
def as_string : JValue → Option String
  | .str s => some s
  | _ => none

/-- `Value::as_f64`: any numeric value. -/
def as_f64 : JValue → Option Rat
  | .num q => some q
  | _ => none

/-- `Value::as_u64`: numeric values that are non-negative integers. -/
def as_u64 : JValue → Option Nat
  | .num q => if q.den = 1 ∧ 0 ≤ q.num then some q.num.toNat else none
  | _ => none

/-- `Value::as_array`. -/
def as_array : JValue → Option (List JValue)
  | .arr xs => some xs
  | _ => none

/-- `Value::is_number`. -/
def is_number : JValue → Bool
  | .num _ => true
  | _ => false

/-- `Value::is_array`. -/
def is_array : JValue → Bool
  | .arr _ => true
  | _ => false

/-- `Value::is_object`. -/
def is_object : JValue → Bool
  | .obj _ => true
  | _ => false

theorem lookupField_sizeOf_lt {fields : List (String × JValue)} {key : String}
    {v : JValue} (h : lookupField fields key = some v) :
    sizeOf v < sizeOf fields := by
  induction fields with
  | nil => simp [lookupField] at h
  | cons kv rest ih =>
    obtain ⟨k, w⟩ := kv
    by_cases hk : k = key
    · simp [lookupField, hk] at h
      subst h
      simp
      omega
    · simp [lookupField, hk] at h
      have := ih h
      simp
      omega

theorem find_sizeOf_lt {o : JValue} {key : String} {v : JValue}
    (h : o.find key = some v) : sizeOf v < sizeOf o := by
  cases o with
  | obj fields =>
    have := @lookupField_sizeOf_lt fields key v h
    simp
    omega
  | null => simp [find] at h
  | bool b => simp [find] at h
  | num q => simp [find] at h
  | str s => simp [find] at h
  | arr xs => simp [find] at h

end JValue

/-- `Option::expect(msg)`: panic (error) with `msg` when the option is empty. -/
def orError {α : Type} : Option α → String → Except String α
  | some a, _ => .ok a
  | none, msg => .error msg

theorem orError_ok {α : Type} {o : Option α} {msg : String} {a : α}
    (h : orError o msg = .ok a) : o = some a := by
  cases o with
  | some b => simpa [orError] using h
  | none => simp [orError] at h

/-- A color with red, green and blue components.
Modelled from the spec: `film::Colorf` is not under `src/`; the loader and
Glass only transport it and test blackness. -/
structure Colorf where
  r : Rat
  g : Rat
  b : Rat
deriving DecidableEq

namespace Colorf

/-- `Colorf::new`. -/
def new (r g b : Rat) : Colorf := ⟨r, g, b⟩

/-- Modelled from the spec: `Colorf::is_black` (film module not under
`src/`) — a color is black when every component is zero. -/
def is_black (c : Colorf) : Bool := c.r = 0 ∧ c.g = 0 ∧ c.b = 0

/-- Componentwise scaling by a scalar (`Colorf * f32`). -/
def scale (c : Colorf) (s : Rat) : Colorf := ⟨c.r * s, c.g * s, c.b * s⟩

end Colorf

/-- Modelled from the spec: the Fresnel dielectric model (`bxdf::fresnel`,
not under `src/`) records its two refraction indices. -/
structure Dielectric where
  eta_i : Rat
  eta_t : Rat
deriving DecidableEq

/-- `Dielectric::new`. -/
def Dielectric.new (eta_i eta_t : Rat) : Dielectric := ⟨eta_i, eta_t⟩

/-- Modelled from the spec: the elementary scattering terms
(`bxdf` module, not under `src/`); each constructor records the arguments
the source passes when building the term. -/
inductive BxDF where
  | specularReflection (color : Colorf) (fresnel : Dielectric) : BxDF
  | specularTransmission (color : Colorf) (fresnel : Dielectric) : BxDF
deriving DecidableEq

/-- The Glass material (`material/glass.rs`): the list of scattering terms
and the refraction index. -/
structure Glass where
  bxdfs : List BxDF
  eta : Rat
deriving DecidableEq

/-- `Glass::new` (`glass.rs` lines 40-52): push a `SpecularReflection` term
when `reflect` is not black, then a `SpecularTransmission` term when
`transmit` is not black, each Fresnel-weighted by `Dielectric::new(1.0, eta)`. -/
def Glass.new (reflect transmit : Colorf) (eta : Rat) : Glass :=
  let bxdfs₀ : List BxDF := []
  let bxdfs₁ :=
    if ¬ reflect.is_black then
      bxdfs₀ ++ [BxDF.specularReflection reflect (Dielectric.new 1 eta)]
    else bxdfs₀
  let bxdfs₂ :=
    if ¬ transmit.is_black then
      bxdfs₁ ++ [BxDF.specularTransmission transmit (Dielectric.new 1 eta)]
    else bxdfs₁
  { bxdfs := bxdfs₂, eta := eta }

/-- A 3-component vector (`linalg::Vector`, argument-recording model). -/
structure Vector where
  x : Rat
  y : Rat
  z : Rat
deriving DecidableEq

/-- `Vector::new`. -/
def Vector.new (x y z : Rat) : Vector := ⟨x, y, z⟩

/-- `Vector::broadcast`: all three components equal. -/
def Vector.broadcast (s : Rat) : Vector := ⟨s, s, s⟩

/-- A 3-component point (`linalg::Point`, argument-recording model). -/
structure Point where
  x : Rat
  y : Rat
  z : Rat
deriving DecidableEq

/-- `Point::new`. -/
def Point.new (x y z : Rat) : Point := ⟨x, y, z⟩

/-- Modelled from the spec: `linalg::Transform` (not under `src/`). The
loader only builds and composes transforms, so the model is the free
syntax of the constructor calls the source makes; composition is the
`comp` constructor. -/
inductive Transform where
  | identity : Transform
  | translate (v : Vector) : Transform
  | scale (v : Vector) : Transform
  | rotate_x (deg : Rat) : Transform
  | rotate_y (deg : Rat) : Transform
  | rotate_z (deg : Rat) : Transform
  | rotate (axis : Vector) (deg : Rat) : Transform
  | look_at (pos target : Point) (up : Vector) : Transform
  | comp (a b : Transform) : Transform
deriving DecidableEq

instance : Mul Transform := ⟨Transform.comp⟩

/-- A transform keyframe (`linalg::Keyframe`). -/
structure Keyframe where
  transform : Transform
  time : Rat
deriving DecidableEq

/-- `Keyframe::new`. -/
def Keyframe.new (t : Transform) (time : Rat) : Keyframe := ⟨t, time⟩

/-- Modelled from the spec: `linalg::AnimatedTransform` (not under `src/`):
a keyframe sequence, with composition (`*` in the source's group handling)
kept as free syntax. -/
inductive AnimatedTransform where
  | with_keyframes (ks : List Keyframe) : AnimatedTransform
  | comp (a b : AnimatedTransform) : AnimatedTransform
deriving DecidableEq

instance : Mul AnimatedTransform := ⟨AnimatedTransform.comp⟩

/-- A color keyframe (`film::ColorKeyframe`). -/
structure ColorKeyframe where
  color : Colorf
  time : Rat
deriving DecidableEq

/-- `ColorKeyframe::new`. -/
def ColorKeyframe.new (c : Colorf) (time : Rat) : ColorKeyframe := ⟨c, time⟩

/-- `film::AnimatedColor`: a sequence of color keyframes. -/
structure AnimatedColor where
  keyframes : List ColorKeyframe
deriving DecidableEq

/-- `AnimatedColor::with_keyframes`. -/
def AnimatedColor.with_keyframes (ks : List ColorKeyframe) : AnimatedColor := ⟨ks⟩

/-- Modelled from the spec: a loaded triangle mesh (`geometry::Mesh`, not
under `src/`), abstracted to an opaque tag; meshes enter the development
only through the modelled OBJ-file system. -/
structure Mesh where
  tag : Nat
deriving DecidableEq

/-- The boundable geometry variants the loader can construct
(`geometry` module, not under `src/`); each constructor records the
arguments of the corresponding `new` call in the source. -/
inductive Geom where
  | sphere (radius : Rat) : Geom
  | disk (radius inner_radius : Rat) : Geom
  | plane : Geom
  | mesh (m : Mesh) : Geom
deriving DecidableEq

/-- The material variants the loader can construct (`material` module);
each constructor records what the source passes to the material
constructor. `Glass` uses the full `Glass::new` from `glass.rs`. -/
inductive Material where
  | glass (g : Glass) : Material
  | matte (diffuse : Colorf) (roughness : Rat) : Material
  | merl (file : String) : Material
  | metal (refractive_index absorption_coefficient : Colorf) (roughness : Rat) : Material
  | plastic (diffuse gloss : Colorf) (roughness : Rat) : Material
  | specular_metal (refractive_index absorption_coefficient : Colorf) : Material
deriving DecidableEq

/-- The payload distinguishing the three instance kinds the source can
build (`Instance::point_light`, `Instance::area_light`,
`Instance::receiver`); there is no group variant — groups are flattened
at load time. -/
inductive InstKind where
  | pointLight (pos : Point) (emission : AnimatedColor) : InstKind
  | areaLight (geom : Geom) (material : Material) (emission : AnimatedColor) : InstKind
  | receiver (geom : Geom) (material : Material) : InstKind
deriving DecidableEq

/-- Modelled from the spec: `geometry::Instance` (not under `src/`): a
named placement of geometry or a light with a time-varying transform. -/
structure Instance where
  kind : InstKind
  transform : AnimatedTransform
  name : String
deriving DecidableEq

/-- Modelled from the spec: `Instance::point_light(pos, emission, name)` —
a point light owns a world-space position and no geometry or material; its
placement transform is the translation to that position. -/
def Instance.point_light (pos : Point) (emission : AnimatedColor) (name : String) : Instance :=
  { kind := .pointLight pos emission,
    transform := .with_keyframes [Keyframe.new (Transform.translate ⟨pos.x, pos.y, pos.z⟩) 0],
    name := name }

/-- `Instance::area_light(geom, material, emission, transform, name)`. -/
def Instance.area_light (geom : Geom) (material : Material) (emission : AnimatedColor)
    (transform : AnimatedTransform) (name : String) : Instance :=
  { kind := .areaLight geom material emission, transform := transform, name := name }

/-- `Instance::receiver(geom, material, transform, name)`. -/
def Instance.receiver (geom : Geom) (material : Material)
    (transform : AnimatedTransform) (name : String) : Instance :=
  { kind := .receiver geom material, transform := transform, name := name }

/-- `Instance::get_transform`. -/
def Instance.get_transform (i : Instance) : AnimatedTransform := i.transform

/-- `Instance::set_transform`. -/
def Instance.set_transform (i : Instance) (t : AnimatedTransform) : Instance :=
  { i with transform := t }

/-- `film::Camera` (argument-recording model of `Camera::new`). -/
structure Camera where
  transform : AnimatedTransform
  fov : Rat
  dims : Nat × Nat
  shutter_open : Rat
  shutter_close : Rat
deriving DecidableEq

/-- `Camera::new(transform, fov, dims, shutter_open, shutter_close)`. -/
def Camera.new (transform : AnimatedTransform) (fov : Rat) (dims : Nat × Nat)
    (shutter_open shutter_close : Rat) : Camera :=
  ⟨transform, fov, dims, shutter_open, shutter_close⟩

/-- The reconstruction filter variants the loader can construct
(models `filter::Filter`; named apart from Mathlib's `Filter`). -/
inductive ReconFilter where
  | mitchell_netravali (width height b c : Rat) : ReconFilter
deriving DecidableEq

/-- `film::RenderTarget` (argument-recording model of `RenderTarget::new`). -/
structure RenderTarget where
  dims : Nat × Nat
  block_dims : Nat × Nat
  filter : ReconFilter
deriving DecidableEq

/-- `RenderTarget::new(dims, block_dims, filter)`. -/
def RenderTarget.new (dims block_dims : Nat × Nat) (filter : ReconFilter) : RenderTarget :=
  ⟨dims, block_dims, filter⟩

/-- `RenderTarget::dimensions`. -/
def RenderTarget.dimensions (rt : RenderTarget) : Nat × Nat := rt.dims

/-- `film::FrameInfo` (argument-recording model of `FrameInfo::new`). -/
structure FrameInfo where
  frames : Nat
  scene_time : Rat
  start_frame : Nat
  end_frame : Nat
deriving DecidableEq

/-- `FrameInfo::new(frames, scene_time, start_frame, end_frame)`. -/
def FrameInfo.new (frames : Nat) (scene_time : Rat) (start_frame end_frame : Nat) : FrameInfo :=
  ⟨frames, scene_time, start_frame, end_frame⟩

/-- The integrator variants the loader can construct (`integrator::Path`,
`integrator::Whitted`), recording the depth bounds. -/
inductive Integrator where
  | path (min_depth max_depth : Nat) : Integrator
  | whitted (min_depth : Nat) : Integrator
deriving DecidableEq

/-- Modelled from the spec: `geometry::BVH` (not under `src/`); `BVH::new`
records its arguments — the maximum leaf size, the instances it takes
ownership of, and the animated-geometry time window. -/
structure BVH where
  max_leaf_size : Nat
  instances : List Instance
  t_start : Rat
  t_end : Rat
deriving DecidableEq

/-- `BVH::new(max_leaf_size, instances, t_start, t_end)`. -/
def BVH.new (max_leaf_size : Nat) (instances : List Instance)
    (t_start t_end : Rat) : BVH :=
  ⟨max_leaf_size, instances, t_start, t_end⟩

/-- A ray, reduced to the data the verified claims mention: its time value
and its shrinking maximum distance (`linalg::Ray` is not under `src/`). -/
structure Ray where
  time : Rat
  max_t : Rat
deriving DecidableEq

/-- A hit record, reduced to the hit distance and the name of the hit
instance (`geometry::Intersection` is not under `src/`). -/
structure Intersection where
  t : Rat
  inst_name : String
deriving DecidableEq

/-- Modelled from the spec: the behavior of `Instance::intersect`
(transform evaluation plus local geometry intersection, none of which is
under `src/`), abstracted as a semantic parameter: it consumes the ray,
returns an optional hit and the ray with its `max_t` possibly shrunk.
The claims about `Scene::intersect` hold for every such semantics. -/
structure InstanceSem where
  hit : Instance → Ray → Option Intersection × Ray

/-- `Instance::intersect(ray)` under a given semantics. -/
def Instance.intersect (sem : InstanceSem) (i : Instance) (ray : Ray) :
    Option Intersection × Ray := sem.hit i ray

/-- Modelled from the spec: `BVH::intersect(ray, f)` (not under `src/`)
tests the candidate instances through the caller-supplied callback,
keeping the closest hit while shrinking the ray so farther hits are
excluded; per spec §8 the result equals testing every owned instance in
order, which is what the model does. -/
def bvh_hit_loop (f : Ray → Instance → Option Intersection × Ray) :
    List Instance → Option Intersection × Ray → Option Intersection × Ray
  | [], acc => acc
  | i :: rest, acc =>
    let res := f acc.2 i
    match res.1 with
    | some h => bvh_hit_loop f rest (some h, res.2)
    | none => bvh_hit_loop f rest (acc.1, res.2)

def BVH.intersect (bvh : BVH) (ray : Ray)
    (f : Ray → Instance → Option Intersection × Ray) : Option Intersection × Ray :=
  bvh_hit_loop f bvh.instances (none, ray)

/-- The scene: camera, BVH over the instances, integrator (`scene.rs`). -/
structure Scene where
  camera : Camera
  bvh : BVH
  integrator : Integrator
deriving DecidableEq

/-- `Scene::intersect` (`scene.rs` lines 93-95): delegate to the BVH
intersect query with the per-instance intersection callback. -/
def Scene.intersect (sem : InstanceSem) (s : Scene) (ray : Ray) :
    Option Intersection × Ray :=
  s.bvh.intersect ray (fun r i => Instance.intersect sem i r)

/-- The full state transition of the Rust call `scene.intersect(&mut ray)`:
it takes `&self` and `&mut Ray`, so the embedding threads both the scene
and the ray through the call and returns them with the result. -/
def Scene.intersect_call (sem : InstanceSem) (s : Scene) (ray : Ray) :
    Option Intersection × Scene × Ray :=
  ((Scene.intersect sem s ray).1, s, (Scene.intersect sem s ray).2)

/-- Generic first-match association-list lookup, modelling `HashMap::get` /
`contains_key` (deduplication is checked by the loader before inserting,
so first match is the only match). -/
def lookupKey {β : Type} : List (String × β) → String → Option β
  | [], _ => none
  | (k, v) :: rest, key => if k = key then some v else lookupKey rest key

/-- `HashMap::insert` for a key the map does not yet contain (the loader
inserts only after checking absence). -/
def insertKey {β : Type} (m : List (String × β)) (k : String) (v : β) :
    List (String × β) := m ++ [(k, v)]

/-- The mesh cache: file name to (model name to mesh), the loader's
`HashMap<String, HashMap<String, Arc<Mesh>>>`. -/
def MeshCache : Type := List (String × List (String × Mesh))

/-- The modelled OBJ-file system: what `Mesh::load_obj` returns for each
file path. Modelled from the spec: mesh-file loading is an external
collaborator, represented as a function from file path to the file's
model-name-to-mesh map. -/
def ObjFs : Type := String → List (String × Mesh)

/-- Modelled from the spec: `Path::is_relative` — a path is relative when
it does not start with the root separator. -/
def is_relative (s : String) : Bool :=
  match s.data with
  | [] => true
  | c :: _ => c ≠ '/'


/-- Modelled from the spec: `Path::join` for a relative second component. -/
def path_join (dir f : String) : String := dir ++ "/" ++ f

/-- Modelled from the spec: `Path::parent` with the source's fallback —
the scene file's directory, used to resolve relative data paths. -/
def parent_path (s : String) : String :=
  String.intercalate "/" ((s.splitOn "/").dropLast)

/-- `load_vector` (`scene.rs` lines 418-434): a JSON array of exactly 3
numbers. -/
def load_vector (elem : JValue) : Option Vector :=
  match elem.as_array with
  | none => none
  | some array =>
    match array with
    | [a, b, c] =>
      match a.as_f64, b.as_f64, c.as_f64 with
      | some x, some y, some z => some (Vector.new x y z)
      | _, _, _ => none
    | _ => none

/-- `load_point` (`scene.rs` lines 438-454): a JSON array of exactly 3
numbers. -/
def load_point (elem : JValue) : Option Point :=
  match elem.as_array with
  | none => none
  | some array =>
    match array with
    | [a, b, c] =>
      match a.as_f64, b.as_f64, c.as_f64 with
      | some x, some y, some z => some (Point.new x y z)
      | _, _, _ => none
    | _ => none

/-- `load_color` (`scene.rs` lines 458-478): a JSON array of 3 or 4
numbers; a 4th component scales the color. -/
def load_color (elem : JValue) : Option Colorf :=
  match elem.as_array with
  | none => none
  | some array =>
    match array with
    | [a, b, c] =>
      match a.as_f64, b.as_f64, c.as_f64 with
      | some x, some y, some z => some (Colorf.new x y z)
      | _, _, _ => none
    | [a, b, c, d] =>
      match a.as_f64, b.as_f64, c.as_f64, d.as_f64 with
      | some x, some y, some z, some w => some ((Colorf.new x y z).scale w)
      | _, _, _, _ => none
    | _ => none

/-- `load_animated_color` (`scene.rs` lines 482-507): either a single
color (first element a number) or an array of time/color keyframes. -/
def load_animated_color (elem : JValue) : Except String (Option AnimatedColor) :=
  match elem.as_array with
  | none => pure none
  | some array =>
    match array with
    | [] => pure none
    | a0 :: _ =>
      if a0.is_number then
        match load_color elem with
        | some c => pure (some (AnimatedColor.with_keyframes [ColorKeyframe.new c 0]))
        | none => pure none
      else do
        let ks ← array.mapM (fun c => do
          let tv ← orError (c.find "time") "A time must be specified for a color keyframe"
          let time ← orError tv.as_f64 "Time for color keyframe must be a number"
          let cv ← orError (c.find "color") "A color must be specified for a color keyframe"
          let color ← orError (load_color cv) "A valid color is required for a color keyframe"
          pure (ColorKeyframe.new color time))
        pure (some (AnimatedColor.with_keyframes ks))

/-- The loop of `load_transform` (`scene.rs` lines 517-563): left-compose
each primitive onto the accumulated transform; an unrecognized type makes
the whole load return `none`. -/
def load_transform_go : List JValue → Transform → Except String (Option Transform)
  | [], transform => pure (some transform)
  | t :: rest, transform => do
    let tyv ← orError (t.find "type") "A type is required for a transform"
    let ty ← orError tyv.as_string "Transform type must be a string"
    if ty = "translate" then do
      let vv ← orError (t.find "translation") "A translation vector is required for translate"
      let v ← orError (load_vector vv) "Invalid vector specified for translation direction"
      load_transform_go rest (Transform.translate v * transform)
    else if ty = "scale" then do
      let s ← orError (t.find "scaling") "A scaling value or vector is required for scale"
      let v ←
        if s.is_array then
          orError (load_vector s) "Invalid vector specified for scaling vector"
        else if s.is_number then do
          let q ← orError s.as_f64 "Invalid float specified for scale value"
          pure (Vector.broadcast q)
        else
          Except.error "Scaling value should be an array of 3 floats or a single float"
      load_transform_go rest (Transform.scale v * transform)
    else if ty = "rotate_x" then do
      let rv ← orError (t.find "rotation") "A rotation in degrees is required for rotate_x"
      let r ← orError rv.as_f64 "rotation for rotate_x must be a number"
      load_transform_go rest (Transform.rotate_x r * transform)
    else if ty = "rotate_y" then do
      let rv ← orError (t.find "rotation") "A rotation in degrees is required for rotate_y"
      let r ← orError rv.as_f64 "rotation for rotate_y must be a number"
      load_transform_go rest (Transform.rotate_y r * transform)
    else if ty = "rotate_z" then do
      let rv ← orError (t.find "rotation") "A rotation in degrees is required for rotate_z"
      let r ← orError rv.as_f64 "rotation for rotate_z must be a number"
      load_transform_go rest (Transform.rotate_z r * transform)
    else if ty = "rotate" then do
      let rv ← orError (t.find "rotation") "A rotation in degrees is required for rotate"
      let r ← orError rv.as_f64 "rotation for rotate must be a number"
      let av ← orError (t.find "axis") "An axis vector is required for rotate"
      let axis ← orError (load_vector av) "Invalid vector specified for rotation axis"
      load_transform_go rest (Transform.rotate axis r * transform)
    else
      pure none

/-- `load_transform` (`scene.rs` lines 511-565). -/
def load_transform (elem : JValue) : Except String (Option Transform) :=
  match elem.as_array with
  | none => pure none
  | some array => load_transform_go array Transform.identity

/-- `load_keyframes` (`scene.rs` lines 569-583). -/
def load_keyframes (elem : JValue) : Except String (Option AnimatedTransform) :=
  match elem.as_array with
  | none => pure none
  | some array => do
    let ks ← array.mapM (fun t => do
      let tv ← orError (t.find "time") "A time is required for a keyframe"
      let time ← orError tv.as_f64 "Time must be a number"
      let trv ← orError (t.find "transform") "A transform is required for a keyframe"
      let tr0 ← load_transform trv
      let transform ← orError tr0 "Invalid transform for keyframe"
      pure (Keyframe.new transform time))
    pure (some (AnimatedTransform.with_keyframes ks))

/-- The per-object transform resolution of `load_objects` (`scene.rs`
lines 296-306): keyframes, else a single transform promoted to a static
keyframe, else a fatal error naming the object. -/
def object_transform (o : JValue) (name : String) : Except String AnimatedTransform :=
  match o.find "keyframes" with
  | some t => do
    let k ← load_keyframes t
    orError k "Invalid keyframes specified"
  | none =>
    match o.find "transform" with
    | some tv => do
      let t0 ← load_transform tv
      let t ← orError t0 "Invalid transform specified"
      pure (AnimatedTransform.with_keyframes [Keyframe.new t 0])
    | none => Except.error ("No transform specified for object " ++ name)

/-- `load_camera` (`scene.rs` lines 144-169). -/
def load_camera (elem : JValue) (dim : Nat × Nat) : Except String Camera := do
  let fovv ← orError (elem.find "fov") "The camera must specify a field of view"
  let fov ← orError fovv.as_f64 "fov must be a float"
  let transform ←
    match elem.find "keyframes" with
    | some t => do
      let k ← load_keyframes t
      orError k "Invalid keyframes specified"
    | none => do
      let t ←
        match elem.find "transform" with
        | some tv => do
          let t0 ← load_transform tv
          orError t0 "Invalid transform specified"
        | none => do
          let posv ← orError (elem.find "position") "The camera must specify a position"
          let pos ← orError (load_point posv) "position must be an array of 3 floats"
          let tgv ← orError (elem.find "target") "The camera must specify a target"
          let target ← orError (load_point tgv) "target must be an array of 3 floats"
          let upv ← orError (elem.find "up") "The camera must specify an up vector"
          let up ← orError (load_vector upv) "up must be an array of 3 floats"
          pure (Transform.look_at pos target up)
      pure (AnimatedTransform.with_keyframes [Keyframe.new t 0])
  pure (Camera.new transform fov dim 0 0)

/-- `load_filter` (`scene.rs` lines 123-139). -/
def load_filter (elem : JValue) : Except String ReconFilter := do
  let wv ← orError (elem.find "width") "The filter must specify the filter width"
  let width ← orError wv.as_f64 "Filter width must be a number"
  let hv ← orError (elem.find "height") "The filter must specify the filter height"
  let height ← orError hv.as_f64 "Filter height must be a number"
  let tyv ← orError (elem.find "type") "A type is required for the filter"
  let ty ← orError tyv.as_string "Filter type must be a string"
  if ty = "mitchell_netravali" then do
    let bv ← orError (elem.find "b") "A b parameter is required for the Mitchell-Netravali filter"
    let b ← orError bv.as_f64 "b must be a number"
    let cv ← orError (elem.find "c") "A c parameter is required for the Mitchell-Netravali filter"
    let c ← orError cv.as_f64 "c must be a number"
    pure (ReconFilter.mitchell_netravali width height b c)
  else
    Except.error ("Unrecognized filter type " ++ ty ++ "!")

/-- `load_film` (`scene.rs` lines 100-121). -/
def load_film (elem : JValue) : Except String (RenderTarget × Nat × FrameInfo) := do
  let wv ← orError (elem.find "width") "The film must specify the image width"
  let width ← orError wv.as_u64 "Image width must be a number"
  let hv ← orError (elem.find "height") "The film must specify the image height"
  let height ← orError hv.as_u64 "Image height must be a number"
  let sv ← orError (elem.find "samples") "The film must specify the number of samples per pixel"
  let spp ← orError sv.as_u64 "Samples per pixel must be a number"
  let sfv ← orError (elem.find "start_frame") "The film must specify the starting frame"
  let start_frame ← orError sfv.as_u64 "Start frame must be a number"
  let efv ← orError (elem.find "end_frame") "The film must specify the frame to end on"
  let end_frame ← orError efv.as_u64 "End frame must be a number"
  if end_frame < start_frame then
    Except.error "End frame must be greater or equal to the starting frame"
  else do
    let frv ← orError (elem.find "frames") "The film must specify the total number of frames"
    let frames ← orError frv.as_u64 "Frames must be a number"
    let stv ← orError (elem.find "scene_time") "The film must specify the overall scene time"
    let scene_time ← orError stv.as_f64 "Scene time must be a number"
    let frame_info := FrameInfo.new frames scene_time start_frame end_frame
    let fv ← orError (elem.find "filter") "The film must specify a reconstruction filter"
    let filter ← load_filter fv
    pure (RenderTarget.new (width, height) (2, 2) filter, spp, frame_info)

/-- `load_integrator` (`scene.rs` lines 173-189). -/
def load_integrator (elem : JValue) : Except String Integrator := do
  let tyv ← orError (elem.find "type") "Integrator must specify a type"
  let ty ← orError tyv.as_string "Integrator type must be a string"
  if ty = "pathtracer" then do
    let mnv ← orError (elem.find "min_depth") "The integrator must specify the minimum ray depth"
    let min_depth ← orError mnv.as_u64 "min_depth must be a number"
    let mxv ← orError (elem.find "max_depth") "The integrator must specify the maximum ray depth"
    let max_depth ← orError mxv.as_u64 "max_depth must be a number"
    pure (Integrator.path min_depth max_depth)
  else if ty = "whitted" then do
    let mnv ← orError (elem.find "min_depth") "The integrator must specify the minimum ray depth"
    let min_depth ← orError mnv.as_u64 "min_depth must be a number"
    pure (Integrator.whitted min_depth)
  else
    Except.error ("Unrecognized integrator type " ++ ty)

/-- `mat_error` (`scene.rs` lines 192-194). -/
def mat_error (mat_name : String) (msg : String) : String :=
  "Error loading material " ++ mat_name ++ ": " ++ msg

/-- The name parse of one entry of `load_materials` (`scene.rs` lines
203-205), with the positional error messages. -/
def material_name (i : Nat) (m : JValue) : Except String String := do
  let nv ← orError (m.find "name")
    ("Error loading material #" ++ toString i ++ ": A name is required")
  orError nv.as_string
    ("Error loading material #" ++ toString i ++ ": name must be a string")

/-- The name a material entry parses to, independent of the positional
error messages of `material_name`: the `name` field read as a string. -/
def parsed_name (m : JValue) : Option String :=
  (m.find "name").bind JValue.as_string

/-- The per-type material construction of `load_materials` (`scene.rs`
lines 212-278), after the name/type parse and the duplicate check. -/
def load_material_entry (path : String) (name ty : String) (m : JValue) :
    Except String Material := do
  if ty = "glass" then do
    let rv ← orError (m.find "reflect") (mat_error name "A reflect color is required for glass")
    let reflect ← orError (load_color rv) (mat_error name "Invalid color specified for reflect of glass")
    let tv ← orError (m.find "transmit") (mat_error name "A transmit color is required for glass")
    let transmit ← orError (load_color tv) (mat_error name "Invalid color specified for transmit of glass")
    let ev ← orError (m.find "eta") (mat_error name "A refractive index eta is required for glass")
    let eta ← orError ev.as_f64 (mat_error name "glass eta must be a float")
    pure (Material.glass (Glass.new reflect transmit eta))
  else if ty = "matte" then do
    let dv ← orError (m.find "diffuse") (mat_error name "A diffuse color is required for matte")
    let diffuse ← orError (load_color dv) (mat_error name "Invalid color specified for diffuse of matte")
    let rv ← orError (m.find "roughness") (mat_error name "A roughness is required for matte")
    let roughness ← orError rv.as_f64 (mat_error name "roughness must be a float")
    pure (Material.matte diffuse roughness)
  else if ty = "merl" then do
    let fv ← orError (m.find "file")
      (mat_error name "A filename containing the MERL material data is required")
    let file_path ← orError fv.as_string (mat_error name "The MERL file must be a string")
    if is_relative file_path then
      pure (Material.merl (path_join path file_path))
    else
      pure (Material.merl file_path)
  else if ty = "metal" then do
    let rv ← orError (m.find "refractive_index")
      (mat_error name "A refractive_index color is required for metal")
    let refr_index ← orError (load_color rv)
      (mat_error name "Invalid color specified for refractive_index of metal")
    let av ← orError (m.find "absorption_coefficient")
      (mat_error name "An absorption_coefficient color is required for metal")
    let absorption_coef ← orError (load_color av)
      (mat_error name "Invalid color specified for absorption_coefficient of metal")
    let ruv ← orError (m.find "roughness") (mat_error name "A roughness is required for metal")
    let roughness ← orError ruv.as_f64 (mat_error name "roughness must be a float")
    pure (Material.metal refr_index absorption_coef roughness)
  else if ty = "plastic" then do
    let dv ← orError (m.find "diffuse") (mat_error name "A diffuse color is required for plastic")
    let diffuse ← orError (load_color dv)
      (mat_error name "Invalid color specified for diffuse of plastic")
    let gv ← orError (m.find "gloss") (mat_error name "A gloss color is required for plastic")
    let gloss ← orError (load_color gv)
      (mat_error name "Invalid color specified for gloss of plastic")
    let ruv ← orError (m.find "roughness") (mat_error name "A roughness is required for plastic")
    let roughness ← orError ruv.as_f64 (mat_error name "roughness must be a float")
    pure (Material.plastic diffuse gloss roughness)
  else if ty = "specular_metal" then do
    let rv ← orError (m.find "refractive_index")
      (mat_error name "A refractive_index color is required for specular metal")
    let refr_index ← orError (load_color rv)
      (mat_error name "Invalid color specified for refractive_index of specular metal")
    let av ← orError (m.find "absorption_coefficient")
      (mat_error name "An absorption_coefficient color is required for specular metal")
    let absorption_coef ← orError (load_color av)
      (mat_error name "Invalid color specified for absorption_coefficient of specular metal")
    pure (Material.specular_metal refr_index absorption_coef)
  else
    Except.error ("Error parsing material " ++ name ++ ": unrecognized type " ++ ty)

/-- The enumerated loop of `load_materials` (`scene.rs` lines 202-279):
parse name and type, reject a duplicate name fatally, construct the
material and insert it under its name. -/
def load_materials_go (path : String) : Nat → List (String × Material) → List JValue →
    Except String (List (String × Material))
  | _, materials, [] => pure materials
  | i, materials, m :: rest => do
    let name ← material_name i m
    let tyv ← orError (m.find "type") (mat_error name "a type is required")
    let ty ← orError tyv.as_string (mat_error name "type must be a string")
    if (lookupKey materials name).isSome then
      Except.error ("Error loading material " ++ name ++ ": name conflicts with an existing entry")
    else do
      let mat ← load_material_entry path name ty m
      load_materials_go path (i + 1) (insertKey materials name mat) rest

/-- `load_materials` (`scene.rs` lines 199-281). -/
def load_materials (path : String) (elem : JValue) :
    Except String (List (String × Material)) := do
  let mat_vec ← orError elem.as_array "The materials must be an array of materials used"
  load_materials_go path 0 [] mat_vec

/-- `load_sampleable_geometry` (`scene.rs` lines 398-414): only spheres
and disks are sampleable; every other geometry type is a fatal error. -/
def load_sampleable_geometry (elem : JValue) : Except String Geom := do
  let tyv ← orError (elem.find "type") "A type is required for geometry"
  let ty ← orError tyv.as_string "Geometry type must be a string"
  if ty = "sphere" then do
    let rv ← orError (elem.find "radius") "A radius is required for a sphere"
    let r ← orError rv.as_f64 "radius must be a number"
    pure (Geom.sphere r)
  else if ty = "disk" then do
    let rv ← orError (elem.find "radius") "A radius is required for a disk"
    let r ← orError rv.as_f64 "radius must be a number"
    let irv ← orError (elem.find "inner_radius") "An inner radius is required for a disk"
    let ir ← orError irv.as_f64 "inner radius must be a number"
    pure (Geom.disk r ir)
  else
    Except.error ("Geometry of type " ++ ty ++
      " is not sampleable and cannot be used for area light geometry")

/-- `load_geometry` (`scene.rs` lines 357-394): spheres, disks, planes
directly; meshes through the cache — an OBJ file is loaded (via the
modelled file system) only when its path is not yet cached, and a model
name absent from the loaded file is a fatal error. -/
def load_geometry (fs : ObjFs) (path : String) (meshes : MeshCache) (elem : JValue) :
    Except String (Geom × MeshCache) := do
  let tyv ← orError (elem.find "type") "A type is required for geometry"
  let ty ← orError tyv.as_string "Geometry type must be a string"
  if ty = "sphere" then do
    let rv ← orError (elem.find "radius") "A radius is required for a sphere"
    let r ← orError rv.as_f64 "radius must be a number"
    pure (Geom.sphere r, meshes)
  else if ty = "disk" then do
    let rv ← orError (elem.find "radius") "A radius is required for a disk"
    let r ← orError rv.as_f64 "radius must be a number"
    let irv ← orError (elem.find "inner_radius") "An inner radius is required for a disk"
    let ir ← orError irv.as_f64 "inner radius must be a number"
    pure (Geom.disk r ir, meshes)
  else if ty = "plane" then
    pure (Geom.plane, meshes)
  else if ty = "mesh" then do
    let fv ← orError (elem.find "file") "An OBJ file is required for meshes"
    let f0 ← orError fv.as_string "OBJ filename must be a string"
    let mv ← orError (elem.find "model") "A model name is required for geometry"
    let model ← orError mv.as_string "Model name type must be a string"
    let file := if is_relative f0 then path_join path f0 else f0
    match lookupKey meshes file with
    | some file_meshes =>
      match lookupKey file_meshes model with
      | some m => pure (Geom.mesh m, meshes)
      | none => Except.error ("Requested model " ++ model ++ " was not found in " ++ file)
    | none =>
      let loaded := fs file
      match lookupKey loaded model with
      | some m => pure (Geom.mesh m, insertKey meshes file loaded)
      | none => Except.error ("Requested model " ++ model ++ " was not found in " ++ file)
  else
    Except.error ("Unrecognized geometry type " ++ ty)

/-- The loop of `load_objects` (`scene.rs` lines 290-351) over the object
array, threading the mesh cache. A group recurses into its own `objects`
array (the recursive `load_objects` call, whose first step is the
array expectation) and pushes each child with the group transform
pre-multiplied onto the child's transform. -/
def load_objects_list (fs : ObjFs) (path : String) (materials : List (String × Material)) :
    List JValue → MeshCache → Except String (List Instance × MeshCache)
  | [], cache => pure ([], cache)
  | o :: os, cache => do
    let namev ← orError (o.find "name") "A name is required for an object"
    let name ← orError namev.as_string "Object name must be a string"
    let tyv ← orError (o.find "type") "A type is required for an object"
    let ty ← orError tyv.as_string "Object type must be a string"
    let transform ← object_transform o name
    if ty = "emitter" then do
      let etv ← orError (o.find "emitter") "An emitter type is required for emitters"
      let emit_ty ← orError etv.as_string "Emitter type must be a string"
      let emv ← orError (o.find "emission") "An emission color is required for emitters"
      let em0 ← load_animated_color emv
      let emission ← orError em0 "Emitter emission must be a color"
      if emit_ty = "point" then do
        let posv ← orError (o.find "position") "A position is required for point lights"
        let pos ← orError (load_point posv) "Invalid position point specified for point light"
        let rest ← load_objects_list fs path materials os cache
        pure (Instance.point_light pos emission name :: rest.1, rest.2)
      else if emit_ty = "area" then do
        let mnv ← orError (o.find "material") "A material is required for an object"
        let mat_name ← orError mnv.as_string "Object material name must be a string"
        let mat ← orError (lookupKey materials mat_name)
          "Material was not found in the material list"
        let gv ← orError (o.find "geometry") "Geometry is required for area lights"
        let geom ← load_sampleable_geometry gv
        let rest ← load_objects_list fs path materials os cache
        pure (Instance.area_light geom mat emission transform name :: rest.1, rest.2)
      else
        Except.error ("Invalid emitter type specified: " ++ emit_ty)
    else if ty = "receiver" then do
      let mnv ← orError (o.find "material") "A material is required for an object"
      let mat_name ← orError mnv.as_string "Object material name must be a string"
      let mat ← orError (lookupKey materials mat_name)
        "Material was not found in the material list"
      let gv ← orError (o.find "geometry") "Geometry is required for receivers"
      let gc ← load_geometry fs path cache gv
      let rest ← load_objects_list fs path materials os gc.2
      pure (Instance.receiver gc.1 mat transform name :: rest.1, rest.2)
    else if ty = "group" then
      match h : o.find "objects" with
      | none => Except.error "A group must specify an array of objects in the group"
      | some group_objects =>
        match h2 : group_objects with
        | .arr gos => do
          let gres ← load_objects_list fs path materials gos cache
          let gis := gres.1.map (fun gi =>
            gi.set_transform (transform * gi.get_transform))
          let rest ← load_objects_list fs path materials os gres.2
          pure (gis ++ rest.1, rest.2)
        | _ => Except.error "The objects must be an array of objects used"
    else
      Except.error ("Error parsing object " ++ name ++ ": unrecognized type " ++ ty)
termination_by os _ => sizeOf os
decreasing_by
  all_goals simp_wf
  all_goals first
  | omega
  | (have hlt := JValue.find_sizeOf_lt h
     subst h2
     simp at hlt ⊢
     omega)

/-- `load_objects` (`scene.rs` lines 285-353). -/
def load_objects (fs : ObjFs) (path : String) (materials : List (String × Material))
    (elem : JValue) (cache : MeshCache) : Except String (List Instance × MeshCache) :=
  match elem with
  | .arr os => load_objects_list fs path materials os cache
  | _ => Except.error "The objects must be an array of objects used"

/-- `Scene::load_file` (`scene.rs` lines 50-90), starting from the parsed
JSON document (file reading and `serde_json` parsing are external I/O):
load film, camera, integrator, materials and objects, reject an empty
instance set, and build the scene with `BVH::new(4, instances, 0.0, 2.0)`. -/
def load_file (fs : ObjFs) (file : String) (data : JValue) :
    Except String (Scene × RenderTarget × Nat × FrameInfo) := do
  if data.is_object then do
    let path := parent_path file
    let filmv ← orError (data.find "film") "The scene must specify a film to write to"
    let rtf ← load_film filmv
    let (rt, spp, frame_info) := rtf
    let camv ← orError (data.find "camera") "The scene must specify a camera"
    let camera ← load_camera camv rt.dimensions
    let intv ← orError (data.find "integrator")
      "The scene must specify the integrator to render with"
    let integrator ← load_integrator intv
    let matv ← orError (data.find "materials")
      "The scene must specify an array of materials"
    let materials ← load_materials path matv
    let objv ← orError (data.find "objects") "The scene must specify a list of objects"
    let res ← load_objects fs path materials objv []
    let instances := res.1
    if instances.isEmpty then
      Except.error "Aborting: the scene does not have any objects!"
    else
      pure ({ camera := camera, bvh := BVH.new 4 instances 0 2,
              integrator := integrator },
            rt, spp, frame_info)
  else
    Except.error "Expected a root JSON object. See example scenes"

/-- C1: For every reflect color, transmit color, and eta, `Glass::new`
contains the `SpecularReflection` term (weighted by `Dielectric::new(1.0, eta)`)
iff `reflect` is not black, contains the `SpecularTransmission` term (same
dielectric) iff `transmit` is not black, and has an empty term list iff both
colors are black. -/
theorem glass_new_terms (reflect transmit : Colorf) (eta : Rat) :
    ((BxDF.specularReflection reflect (Dielectric.new 1 eta))
        ∈ (Glass.new reflect transmit eta).bxdfs ↔ ¬ reflect.is_black) ∧
    ((BxDF.specularTransmission transmit (Dielectric.new 1 eta))
        ∈ (Glass.new reflect transmit eta).bxdfs ↔ ¬ transmit.is_black) ∧
    ((Glass.new reflect transmit eta).bxdfs = [] ↔
        (reflect.is_black ∧ transmit.is_black)) := by
  by_cases hr : reflect.is_black <;> by_cases ht : transmit.is_black <;>
    simp [Glass.new, hr, ht]

/-- C1 witness: concrete evaluation at a non-black reflect color, a black
transmit color and eta 3/2. -/
theorem glass_new_terms_witness :
    ((BxDF.specularReflection (Colorf.new 1 1 1) (Dielectric.new 1 (3/2)))
        ∈ (Glass.new (Colorf.new 1 1 1) (Colorf.new 0 0 0) (3/2)).bxdfs ↔
        ¬ (Colorf.new 1 1 1).is_black) ∧
    ((BxDF.specularTransmission (Colorf.new 0 0 0) (Dielectric.new 1 (3/2)))
        ∈ (Glass.new (Colorf.new 1 1 1) (Colorf.new 0 0 0) (3/2)).bxdfs ↔
        ¬ (Colorf.new 0 0 0).is_black) ∧
    ((Glass.new (Colorf.new 1 1 1) (Colorf.new 0 0 0) (3/2)).bxdfs = [] ↔
        ((Colorf.new 1 1 1).is_black ∧ (Colorf.new 0 0 0).is_black)) :=
  glass_new_terms (Colorf.new 1 1 1) (Colorf.new 0 0 0) (3/2)

theorem except_bind_ok {α β : Type} {x : Except String α} {f : α → Except String β}
    {b : β} (h : x >>= f = .ok b) : ∃ a, x = .ok a ∧ f a = .ok b := by
  cases x with
  | error e => simp [Bind.bind, Except.bind] at h
  | ok a => exact ⟨a, rfl, by simpa [Bind.bind, Except.bind] using h⟩

theorem bvh_hit_loop_none (f : Ray → Instance → Option Intersection × Ray) :
    ∀ (l : List Instance) (acc : Option Intersection × Ray),
    (∀ i ∈ l, ∀ rr, (f rr i).1 = none) →
    (bvh_hit_loop f l acc).1 = acc.1 := by
  intro l
  induction l with
  | nil => intro acc _; rfl
  | cons i rest ih =>
    intro acc hmiss
    have hstep := hmiss i (by simp) acc.2
    rcases hfr : f acc.2 i with ⟨o1, r2⟩
    rw [hfr] at hstep
    simp at hstep
    subst hstep
    have hrest : ∀ j ∈ rest, ∀ rr, (f rr j).1 = none := by
      intro j hj rr
      exact hmiss j (by simp [hj]) rr
    show (bvh_hit_loop f (i :: rest) acc).1 = acc.1
    rw [show bvh_hit_loop f (i :: rest) acc = bvh_hit_loop f rest (acc.1, r2) from by
      show (match (f acc.2 i).1 with
            | some h => bvh_hit_loop f rest (some h, (f acc.2 i).2)
            | none => bvh_hit_loop f rest (acc.1, (f acc.2 i).2)) =
        bvh_hit_loop f rest (acc.1, r2)
      rw [hfr]]
    exact ih (acc.1, r2) hrest

/-- C2: `Scene::intersect` returns exactly the scene BVH's intersect query
with the per-instance callback `Instance::intersect`, and when no instance
is hit by the callback the result is `none`, not an error. -/
theorem scene_intersect_delegates (sem : InstanceSem) (s : Scene) (ray : Ray) :
    Scene.intersect sem s ray
      = s.bvh.intersect ray (fun r i => Instance.intersect sem i r) ∧
    ((∀ i ∈ s.bvh.instances, ∀ rr, (Instance.intersect sem i rr).1 = none) →
      (Scene.intersect sem s ray).1 = none) := by
  constructor
  · rfl
  · intro hmiss
    show (BVH.intersect s.bvh ray (fun r i => Instance.intersect sem i r)).1 = none
    unfold BVH.intersect
    exact bvh_hit_loop_none (fun r i => Instance.intersect sem i r) s.bvh.instances
      (none, ray) hmiss

/-- C2 witness: with a semantics in which every instance misses, the
point-light scene's intersect returns `none` through the BVH query. -/
theorem scene_intersect_delegates_witness :
    (Scene.intersect ⟨fun _ r => (none, r)⟩
        { camera := Camera.new (AnimatedTransform.with_keyframes []) 60 (8, 8) 0 0,
          bvh := BVH.new 4
            [Instance.point_light (Point.new 0 0 0) (AnimatedColor.with_keyframes []) "L"] 0 2,
          integrator := Integrator.whitted 1 } ⟨0, 100⟩
      = BVH.intersect (BVH.new 4
            [Instance.point_light (Point.new 0 0 0) (AnimatedColor.with_keyframes []) "L"] 0 2)
          ⟨0, 100⟩ (fun r i => Instance.intersect ⟨fun _ r => (none, r)⟩ i r)) ∧
    (Scene.intersect ⟨fun _ r => (none, r)⟩
        { camera := Camera.new (AnimatedTransform.with_keyframes []) 60 (8, 8) 0 0,
          bvh := BVH.new 4
            [Instance.point_light (Point.new 0 0 0) (AnimatedColor.with_keyframes []) "L"] 0 2,
          integrator := Integrator.whitted 1 } ⟨0, 100⟩).1 = none := by
  have h := scene_intersect_delegates ⟨fun _ r => (none, r)⟩
    { camera := Camera.new (AnimatedTransform.with_keyframes []) 60 (8, 8) 0 0,
      bvh := BVH.new 4
        [Instance.point_light (Point.new 0 0 0) (AnimatedColor.with_keyframes []) "L"] 0 2,
      integrator := Integrator.whitted 1 } ⟨0, 100⟩
  exact ⟨h.1, h.2 (by intro i _ rr; rfl)⟩

/-- C3: `Scene::intersect` is pure: the call leaves the scene unchanged
(the embedding threads the scene through the call), the result depends on
the scene only through its BVH, and equal scene and ray inputs give equal
results. -/
theorem scene_intersect_pure (sem : InstanceSem) (s s' : Scene) (r r' : Ray) :
    (Scene.intersect_call sem s r).2.1 = s ∧
    (s.bvh = s'.bvh → Scene.intersect sem s r = Scene.intersect sem s' r) ∧
    (s = s' → r = r' → Scene.intersect_call sem s r = Scene.intersect_call sem s' r') := by
  refine ⟨rfl, ?_, ?_⟩
  · intro hbvh
    unfold Scene.intersect
    rw [hbvh]
  · intro hs hr
    rw [hs, hr]

/-- C3 witness: concrete scene and ray, all three purity components. -/
theorem scene_intersect_pure_witness :
    ((Scene.intersect_call ⟨fun _ r => (none, r)⟩
        { camera := Camera.new (AnimatedTransform.with_keyframes []) 45 (4, 4) 0 0,
          bvh := BVH.new 4
            [Instance.point_light (Point.new 1 2 3) (AnimatedColor.with_keyframes []) "P"] 0 2,
          integrator := Integrator.path 1 4 } ⟨0, 50⟩).2.1 =
      { camera := Camera.new (AnimatedTransform.with_keyframes []) 45 (4, 4) 0 0,
        bvh := BVH.new 4
          [Instance.point_light (Point.new 1 2 3) (AnimatedColor.with_keyframes []) "P"] 0 2,
        integrator := Integrator.path 1 4 }) ∧
    Scene.intersect_call ⟨fun _ r => (none, r)⟩
        { camera := Camera.new (AnimatedTransform.with_keyframes []) 45 (4, 4) 0 0,
          bvh := BVH.new 4
            [Instance.point_light (Point.new 1 2 3) (AnimatedColor.with_keyframes []) "P"] 0 2,
          integrator := Integrator.path 1 4 } ⟨0, 50⟩ =
      Scene.intersect_call ⟨fun _ r => (none, r)⟩
        { camera := Camera.new (AnimatedTransform.with_keyframes []) 45 (4, 4) 0 0,
          bvh := BVH.new 4
            [Instance.point_light (Point.new 1 2 3) (AnimatedColor.with_keyframes []) "P"] 0 2,
          integrator := Integrator.path 1 4 } ⟨0, 50⟩ := by
  have h := scene_intersect_pure ⟨fun _ r => (none, r)⟩
    { camera := Camera.new (AnimatedTransform.with_keyframes []) 45 (4, 4) 0 0,
      bvh := BVH.new 4
        [Instance.point_light (Point.new 1 2 3) (AnimatedColor.with_keyframes []) "P"] 0 2,
      integrator := Integrator.path 1 4 }
    { camera := Camera.new (AnimatedTransform.with_keyframes []) 45 (4, 4) 0 0,
      bvh := BVH.new 4
        [Instance.point_light (Point.new 1 2 3) (AnimatedColor.with_keyframes []) "P"] 0 2,
      integrator := Integrator.path 1 4 } ⟨0, 50⟩ ⟨0, 50⟩
  exact ⟨h.1, h.2.2 rfl rfl⟩

theorem load_file_ok_bvh {fs : ObjFs} {file : String} {data : JValue}
    {out : Scene × RenderTarget × Nat × FrameInfo}
    (h : load_file fs file data = .ok out) :
    out.1.bvh.max_leaf_size = 4 ∧ out.1.bvh.t_start = 0 ∧ out.1.bvh.t_end = 2 ∧
    out.1.bvh.instances ≠ [] := by
  unfold load_file at h
  split at h
  · obtain ⟨filmv, h1, h⟩ := except_bind_ok h
    obtain ⟨rtf, h2, h⟩ := except_bind_ok h
    obtain ⟨rt, spp, fi⟩ := rtf
    obtain ⟨camv, h3, h⟩ := except_bind_ok h
    obtain ⟨camera, h4, h⟩ := except_bind_ok h
    obtain ⟨intv, h5, h⟩ := except_bind_ok h
    obtain ⟨integrator, h6, h⟩ := except_bind_ok h
    obtain ⟨matv, h7, h⟩ := except_bind_ok h
    obtain ⟨materials, h8, h⟩ := except_bind_ok h
    obtain ⟨objv, h9, h⟩ := except_bind_ok h
    obtain ⟨res, h10, h⟩ := except_bind_ok h
    dsimp only at h
    split at h
    · simp at h
    · rename_i hne
      simp only [pure, Except.pure, Except.ok.injEq] at h
      subst h
      refine ⟨rfl, rfl, rfl, ?_⟩
      intro hnil
      have hnil2 : res.1 = [] := hnil
      rw [hnil2] at hne
      simp at hne
  · simp at h

/-- C4: scene construction requires at least one instance — whenever
`Scene::load_file` produces a scene at all, its BVH's instance set is
non-empty; an input whose objects yield an empty instance set can only
fail fatally, never produce a `Scene`. -/
theorem load_file_requires_instances (fs : ObjFs) (file : String) (data : JValue)
    (out : Scene × RenderTarget × Nat × FrameInfo)
    (h : load_file fs file data = .ok out) :
    out.1.bvh.instances ≠ [] :=
  (load_file_ok_bvh h).2.2.2

/-- C4 witness: a one-point-light scene loads successfully and its
instance set is non-empty. -/
theorem load_file_requires_instances_witness :
    load_file (fun _ => []) "scene.json"
      (JValue.obj [("film", JValue.obj [("width", JValue.num 8), ("height", JValue.num 8),
          ("samples", JValue.num 1), ("start_frame", JValue.num 0), ("end_frame", JValue.num 0),
          ("frames", JValue.num 1), ("scene_time", JValue.num 1),
          ("filter", JValue.obj [("width", JValue.num 2), ("height", JValue.num 2),
            ("type", JValue.str "mitchell_netravali"),
            ("b", JValue.num (1/3)), ("c", JValue.num (1/3))])]),
        ("camera", JValue.obj [("fov", JValue.num 60), ("transform", JValue.arr [])]),
        ("integrator", JValue.obj [("type", JValue.str "whitted"), ("min_depth", JValue.num 4)]),
        ("materials", JValue.arr []),
        ("objects", JValue.arr [JValue.obj [("name", JValue.str "L"),
          ("type", JValue.str "emitter"), ("transform", JValue.arr []),
          ("emitter", JValue.str "point"),
          ("position", JValue.arr [JValue.num 0, JValue.num 0, JValue.num 0]),
          ("emission", JValue.arr [JValue.num 1, JValue.num 1, JValue.num 1])]])])
    = .ok ({ camera := Camera.new (AnimatedTransform.with_keyframes
              [Keyframe.new Transform.identity 0]) 60 (8, 8) 0 0,
             bvh := BVH.new 4 [Instance.point_light (Point.new 0 0 0)
               (AnimatedColor.with_keyframes [ColorKeyframe.new (Colorf.new 1 1 1) 0]) "L"] 0 2,
             integrator := Integrator.whitted 4 },
           RenderTarget.new (8, 8) (2, 2) (ReconFilter.mitchell_netravali 2 2 (1/3) (1/3)),
           1, FrameInfo.new 1 1 0 0) ∧
    (({ camera := Camera.new (AnimatedTransform.with_keyframes
              [Keyframe.new Transform.identity 0]) 60 (8, 8) 0 0,
        bvh := BVH.new 4 [Instance.point_light (Point.new 0 0 0)
          (AnimatedColor.with_keyframes [ColorKeyframe.new (Colorf.new 1 1 1) 0]) "L"] 0 2,
        integrator := Integrator.whitted 4 },
       RenderTarget.new (8, 8) (2, 2) (ReconFilter.mitchell_netravali 2 2 (1/3) (1/3)),
       1, FrameInfo.new 1 1 0 0) :
        Scene × RenderTarget × Nat × FrameInfo).1.bvh.instances ≠ [] := by
  have h : load_file (fun _ => []) "scene.json"
      (JValue.obj [("film", JValue.obj [("width", JValue.num 8), ("height", JValue.num 8),
          ("samples", JValue.num 1), ("start_frame", JValue.num 0), ("end_frame", JValue.num 0),
          ("frames", JValue.num 1), ("scene_time", JValue.num 1),
          ("filter", JValue.obj [("width", JValue.num 2), ("height", JValue.num 2),
            ("type", JValue.str "mitchell_netravali"),
            ("b", JValue.num (1/3)), ("c", JValue.num (1/3))])]),
        ("camera", JValue.obj [("fov", JValue.num 60), ("transform", JValue.arr [])]),
        ("integrator", JValue.obj [("type", JValue.str "whitted"), ("min_depth", JValue.num 4)]),
        ("materials", JValue.arr []),
        ("objects", JValue.arr [JValue.obj [("name", JValue.str "L"),
          ("type", JValue.str "emitter"), ("transform", JValue.arr []),
          ("emitter", JValue.str "point"),
          ("position", JValue.arr [JValue.num 0, JValue.num 0, JValue.num 0]),
          ("emission", JValue.arr [JValue.num 1, JValue.num 1, JValue.num 1])]])])
      = .ok ({ camera := Camera.new (AnimatedTransform.with_keyframes
                [Keyframe.new Transform.identity 0]) 60 (8, 8) 0 0,
               bvh := BVH.new 4 [Instance.point_light (Point.new 0 0 0)
                 (AnimatedColor.with_keyframes [ColorKeyframe.new (Colorf.new 1 1 1) 0]) "L"] 0 2,
               integrator := Integrator.whitted 4 },
             RenderTarget.new (8, 8) (2, 2) (ReconFilter.mitchell_netravali 2 2 (1/3) (1/3)),
             1, FrameInfo.new 1 1 0 0) := by
    simp [load_file, load_film, load_filter, load_camera,
      load_integrator, load_materials, load_materials_go, load_objects, load_objects_list,
      object_transform, load_keyframes, load_transform, load_transform_go, load_animated_color,
      load_color, load_point, orError, parent_path,
      JValue.find, JValue.lookupField, JValue.as_string, JValue.as_f64, JValue.as_u64,
      JValue.as_array, JValue.is_number, JValue.is_object, Instance.point_light,
      AnimatedColor.with_keyframes, ColorKeyframe.new, Colorf.new, Point.new, Keyframe.new,
      Camera.new, RenderTarget.new, RenderTarget.dimensions, FrameInfo.new, BVH.new,
      Bind.bind, Except.bind, pure, Except.pure]
  exact ⟨h, load_file_requires_instances _ _ _ _ h⟩

/-- C10: every scene `Scene::load_file` produces has its BVH built with
max leaf size 4 and animated-geometry time window from 0.0 to 2.0,
independently of the film parameters in the input. -/
theorem load_file_bvh_constants (fs : ObjFs) (file : String) (data : JValue)
    (out : Scene × RenderTarget × Nat × FrameInfo)
    (h : load_file fs file data = .ok out) :
    out.1.bvh.max_leaf_size = 4 ∧ out.1.bvh.t_start = 0 ∧ out.1.bvh.t_end = 2 :=
  ⟨(load_file_ok_bvh h).1, (load_file_ok_bvh h).2.1, (load_file_ok_bvh h).2.2.1⟩

/-- C10 witness: a pathtracer scene with different film values still gets
BVH constants 4, 0.0, 2.0. -/
theorem load_file_bvh_constants_witness :
    load_file (fun _ => []) "scenes/demo.json"
      (JValue.obj [("film", JValue.obj [("width", JValue.num 16), ("height", JValue.num 9),
          ("samples", JValue.num 2), ("start_frame", JValue.num 1), ("end_frame", JValue.num 2),
          ("frames", JValue.num 5), ("scene_time", JValue.num 3),
          ("filter", JValue.obj [("width", JValue.num 2), ("height", JValue.num 2),
            ("type", JValue.str "mitchell_netravali"),
            ("b", JValue.num (1/3)), ("c", JValue.num (1/3))])]),
        ("camera", JValue.obj [("fov", JValue.num 45), ("transform", JValue.arr [])]),
        ("integrator", JValue.obj [("type", JValue.str "pathtracer"),
          ("min_depth", JValue.num 3), ("max_depth", JValue.num 8)]),
        ("materials", JValue.arr []),
        ("objects", JValue.arr [JValue.obj [("name", JValue.str "Key"),
          ("type", JValue.str "emitter"), ("transform", JValue.arr []),
          ("emitter", JValue.str "point"),
          ("position", JValue.arr [JValue.num 1, JValue.num 2, JValue.num 3]),
          ("emission", JValue.arr [JValue.num 1, JValue.num 1, JValue.num 1])]])])
    = .ok ({ camera := Camera.new (AnimatedTransform.with_keyframes
              [Keyframe.new Transform.identity 0]) 45 (16, 9) 0 0,
             bvh := BVH.new 4 [Instance.point_light (Point.new 1 2 3)
               (AnimatedColor.with_keyframes [ColorKeyframe.new (Colorf.new 1 1 1) 0]) "Key"] 0 2,
             integrator := Integrator.path 3 8 },
           RenderTarget.new (16, 9) (2, 2) (ReconFilter.mitchell_netravali 2 2 (1/3) (1/3)),
           2, FrameInfo.new 5 3 1 2) ∧
    (({ camera := Camera.new (AnimatedTransform.with_keyframes
              [Keyframe.new Transform.identity 0]) 45 (16, 9) 0 0,
        bvh := BVH.new 4 [Instance.point_light (Point.new 1 2 3)
          (AnimatedColor.with_keyframes [ColorKeyframe.new (Colorf.new 1 1 1) 0]) "Key"] 0 2,
        integrator := Integrator.path 3 8 },
       RenderTarget.new (16, 9) (2, 2) (ReconFilter.mitchell_netravali 2 2 (1/3) (1/3)),
       2, FrameInfo.new 5 3 1 2) :
        Scene × RenderTarget × Nat × FrameInfo).1.bvh.max_leaf_size = 4 ∧
    (({ camera := Camera.new (AnimatedTransform.with_keyframes
              [Keyframe.new Transform.identity 0]) 45 (16, 9) 0 0,
        bvh := BVH.new 4 [Instance.point_light (Point.new 1 2 3)
          (AnimatedColor.with_keyframes [ColorKeyframe.new (Colorf.new 1 1 1) 0]) "Key"] 0 2,
        integrator := Integrator.path 3 8 },
       RenderTarget.new (16, 9) (2, 2) (ReconFilter.mitchell_netravali 2 2 (1/3) (1/3)),
       2, FrameInfo.new 5 3 1 2) :
        Scene × RenderTarget × Nat × FrameInfo).1.bvh.t_start = 0 := by
  have h : load_file (fun _ => []) "scenes/demo.json"
      (JValue.obj [("film", JValue.obj [("width", JValue.num 16), ("height", JValue.num 9),
          ("samples", JValue.num 2), ("start_frame", JValue.num 1), ("end_frame", JValue.num 2),
          ("frames", JValue.num 5), ("scene_time", JValue.num 3),
          ("filter", JValue.obj [("width", JValue.num 2), ("height", JValue.num 2),
            ("type", JValue.str "mitchell_netravali"),
            ("b", JValue.num (1/3)), ("c", JValue.num (1/3))])]),
        ("camera", JValue.obj [("fov", JValue.num 45), ("transform", JValue.arr [])]),
        ("integrator", JValue.obj [("type", JValue.str "pathtracer"),
          ("min_depth", JValue.num 3), ("max_depth", JValue.num 8)]),
        ("materials", JValue.arr []),
        ("objects", JValue.arr [JValue.obj [("name", JValue.str "Key"),
          ("type", JValue.str "emitter"), ("transform", JValue.arr []),
          ("emitter", JValue.str "point"),
          ("position", JValue.arr [JValue.num 1, JValue.num 2, JValue.num 3]),
          ("emission", JValue.arr [JValue.num 1, JValue.num 1, JValue.num 1])]])])
      = .ok ({ camera := Camera.new (AnimatedTransform.with_keyframes
                [Keyframe.new Transform.identity 0]) 45 (16, 9) 0 0,
               bvh := BVH.new 4 [Instance.point_light (Point.new 1 2 3)
                 (AnimatedColor.with_keyframes [ColorKeyframe.new (Colorf.new 1 1 1) 0]) "Key"] 0 2,
               integrator := Integrator.path 3 8 },
             RenderTarget.new (16, 9) (2, 2) (ReconFilter.mitchell_netravali 2 2 (1/3) (1/3)),
             2, FrameInfo.new 5 3 1 2) := by
    simp [load_file, load_film, load_filter, load_camera,
      load_integrator, load_materials, load_materials_go, load_objects, load_objects_list,
      object_transform, load_keyframes, load_transform, load_transform_go, load_animated_color,
      load_color, load_point, orError, parent_path,
      JValue.find, JValue.lookupField, JValue.as_string, JValue.as_f64, JValue.as_u64,
      JValue.as_array, JValue.is_number, JValue.is_object, Instance.point_light,
      AnimatedColor.with_keyframes, ColorKeyframe.new, Colorf.new, Point.new, Keyframe.new,
      Camera.new, RenderTarget.new, RenderTarget.dimensions, FrameInfo.new, BVH.new,
      Bind.bind, Except.bind, pure, Except.pure]
  exact ⟨h, (load_file_bvh_constants _ _ _ _ h).1, (load_file_bvh_constants _ _ _ _ h).2.1⟩

/-- C7: `load_sampleable_geometry` accepts exactly the geometry types
sphere and disk; every other type (including plane and mesh) is a fatal
error. -/
theorem load_sampleable_geometry_spec (elem : JValue) (ty : String)
    (h : (elem.find "type").bind JValue.as_string = some ty) :
    ((ty ≠ "sphere" ∧ ty ≠ "disk") → ∃ e, load_sampleable_geometry elem = .error e) ∧
    (∀ r : Rat, ty = "sphere" → (elem.find "radius").bind JValue.as_f64 = some r →
      load_sampleable_geometry elem = .ok (Geom.sphere r)) ∧
    (∀ r ir : Rat, ty = "disk" → (elem.find "radius").bind JValue.as_f64 = some r →
      (elem.find "inner_radius").bind JValue.as_f64 = some ir →
      load_sampleable_geometry elem = .ok (Geom.disk r ir)) := by
  obtain ⟨tyv, hfind, hstr⟩ : ∃ tv, elem.find "type" = some tv ∧ tv.as_string = some ty := by
    cases hf : elem.find "type" with
    | none => rw [hf] at h; simp at h
    | some tv => rw [hf] at h; exact ⟨tv, rfl, by simpa using h⟩
  refine ⟨?_, ?_, ?_⟩
  · rintro ⟨hs, hd⟩
    refine ⟨"Geometry of type " ++ ty ++
      " is not sampleable and cannot be used for area light geometry", ?_⟩
    simp [load_sampleable_geometry, hfind, hstr, orError, hs, hd,
      Bind.bind, Except.bind]
  · intro r hsphere hr
    obtain ⟨rv, hrfind, hrf⟩ : ∃ rv, elem.find "radius" = some rv ∧ rv.as_f64 = some r := by
      cases hf : elem.find "radius" with
      | none => rw [hf] at hr; simp at hr
      | some rv => rw [hf] at hr; exact ⟨rv, rfl, by simpa using hr⟩
    subst hsphere
    simp [load_sampleable_geometry, hfind, hstr, hrfind, hrf, orError,
      Bind.bind, Except.bind, pure, Except.pure]
  · intro r ir hdisk hr hir
    obtain ⟨rv, hrfind, hrf⟩ : ∃ rv, elem.find "radius" = some rv ∧ rv.as_f64 = some r := by
      cases hf : elem.find "radius" with
      | none => rw [hf] at hr; simp at hr
      | some rv => rw [hf] at hr; exact ⟨rv, rfl, by simpa using hr⟩
    obtain ⟨irv, hirfind, hirf⟩ :
        ∃ iv, elem.find "inner_radius" = some iv ∧ iv.as_f64 = some ir := by
      cases hf : elem.find "inner_radius" with
      | none => rw [hf] at hir; simp at hir
      | some iv => rw [hf] at hir; exact ⟨iv, rfl, by simpa using hir⟩
    subst hdisk
    simp [load_sampleable_geometry, hfind, hstr, hrfind, hrf, hirfind, hirf, orError,
      Bind.bind, Except.bind, pure, Except.pure]

/-- C7 witness: a plane is rejected as area-light geometry; a concrete
sphere and a concrete disk are accepted. -/
theorem load_sampleable_geometry_spec_witness :
    (∃ e, load_sampleable_geometry (JValue.obj [("type", JValue.str "plane")]) = .error e) ∧
    load_sampleable_geometry
        (JValue.obj [("type", JValue.str "sphere"), ("radius", JValue.num 2)])
      = .ok (Geom.sphere 2) ∧
    load_sampleable_geometry
        (JValue.obj [("type", JValue.str "disk"), ("radius", JValue.num 3),
          ("inner_radius", JValue.num 1)])
      = .ok (Geom.disk 3 1) := by
  have h1 := load_sampleable_geometry_spec (JValue.obj [("type", JValue.str "plane")]) "plane"
    (by simp [JValue.find, JValue.lookupField, JValue.as_string])
  have h2 := load_sampleable_geometry_spec
    (JValue.obj [("type", JValue.str "sphere"), ("radius", JValue.num 2)]) "sphere"
    (by simp [JValue.find, JValue.lookupField, JValue.as_string])
  have h3 := load_sampleable_geometry_spec
    (JValue.obj [("type", JValue.str "disk"), ("radius", JValue.num 3),
      ("inner_radius", JValue.num 1)]) "disk"
    (by simp [JValue.find, JValue.lookupField, JValue.as_string])
  refine ⟨h1.1 (by simp), h2.2.1 2 rfl ?_, h3.2.2 3 1 rfl ?_ ?_⟩
  · simp [JValue.find, JValue.lookupField, JValue.as_f64]
  · simp [JValue.find, JValue.lookupField, JValue.as_f64]
  · simp [JValue.find, JValue.lookupField, JValue.as_f64]

/-- C9: the mesh cache is keyed by resolved file path then model name:
with the file already cached, `load_geometry` consults only the cache and
leaves it unchanged; with the file not cached, it loads the OBJ file once
and caches the file's whole model map; a model name absent from the
loaded file is a fatal error in both cases. -/
theorem load_geometry_mesh_cache (fs : ObjFs) (path : String) (cache : MeshCache)
    (elem : JValue) (f0 model file : String)
    (hty : (elem.find "type").bind JValue.as_string = some "mesh")
    (hf : (elem.find "file").bind JValue.as_string = some f0)
    (hm : (elem.find "model").bind JValue.as_string = some model)
    (hfile : file = if is_relative f0 then path_join path f0 else f0) :
    (∀ fm, lookupKey cache file = some fm →
      ((∀ m, lookupKey fm model = some m →
          load_geometry fs path cache elem = .ok (Geom.mesh m, cache)) ∧
       (lookupKey fm model = none → ∃ e, load_geometry fs path cache elem = .error e))) ∧
    (lookupKey cache file = none →
      ((∀ m, lookupKey (fs file) model = some m →
          load_geometry fs path cache elem
            = .ok (Geom.mesh m, insertKey cache file (fs file))) ∧
       (lookupKey (fs file) model = none →
          ∃ e, load_geometry fs path cache elem = .error e))) := by
  obtain ⟨tyv, htf, hts⟩ : ∃ tv, elem.find "type" = some tv ∧ tv.as_string = some "mesh" := by
    cases hx : elem.find "type" with
    | none => rw [hx] at hty; simp at hty
    | some tv => rw [hx] at hty; exact ⟨tv, rfl, by simpa using hty⟩
  obtain ⟨fv, hff, hfs⟩ : ∃ fv, elem.find "file" = some fv ∧ fv.as_string = some f0 := by
    cases hx : elem.find "file" with
    | none => rw [hx] at hf; simp at hf
    | some fv => rw [hx] at hf; exact ⟨fv, rfl, by simpa using hf⟩
  obtain ⟨mv, hmf, hms⟩ : ∃ mv, elem.find "model" = some mv ∧ mv.as_string = some model := by
    cases hx : elem.find "model" with
    | none => rw [hx] at hm; simp at hm
    | some mv => rw [hx] at hm; exact ⟨mv, rfl, by simpa using hm⟩
  subst hfile
  constructor
  · intro fm hcache
    constructor
    · intro m hmodel
      simp [load_geometry, htf, hts, hff, hfs, hmf, hms, orError, hcache, hmodel,
        Bind.bind, Except.bind, pure, Except.pure]
    · intro hmodel
      refine ⟨"Requested model " ++ model ++ " was not found in "
        ++ (if is_relative f0 then path_join path f0 else f0), ?_⟩
      simp [load_geometry, htf, hts, hff, hfs, hmf, hms, orError, hcache, hmodel,
        Bind.bind, Except.bind]
  · intro hcache
    constructor
    · intro m hmodel
      simp [load_geometry, htf, hts, hff, hfs, hmf, hms, orError, hcache, hmodel,
        Bind.bind, Except.bind, pure, Except.pure]
    · intro hmodel
      refine ⟨"Requested model " ++ model ++ " was not found in "
        ++ (if is_relative f0 then path_join path f0 else f0), ?_⟩
      simp [load_geometry, htf, hts, hff, hfs, hmf, hms, orError, hcache, hmodel,
        Bind.bind, Except.bind]

/-- C9 witness: a cached file is served from the cache unchanged, an
uncached file is loaded through the modelled file system and inserted,
and a missing model is a fatal error. -/
theorem load_geometry_mesh_cache_witness :
    (load_geometry (fun _ => [("bunny", ⟨7⟩)]) "scenes"
        [("scenes/a.obj", [("bunny", ⟨3⟩)])]
        (JValue.obj [("type", JValue.str "mesh"), ("file", JValue.str "a.obj"),
          ("model", JValue.str "bunny")])
      = .ok (Geom.mesh ⟨3⟩, [("scenes/a.obj", [("bunny", ⟨3⟩)])])) ∧
    (load_geometry (fun _ => [("bunny", ⟨7⟩)]) "scenes" []
        (JValue.obj [("type", JValue.str "mesh"), ("file", JValue.str "a.obj"),
          ("model", JValue.str "bunny")])
      = .ok (Geom.mesh ⟨7⟩, [("scenes/a.obj", [("bunny", ⟨7⟩)])])) ∧
    (∃ e, load_geometry (fun _ => [("bunny", ⟨7⟩)]) "scenes"
        [("scenes/a.obj", [("bunny", ⟨3⟩)])]
        (JValue.obj [("type", JValue.str "mesh"), ("file", JValue.str "a.obj"),
          ("model", JValue.str "dragon")])
      = .error e) := by
  have hbase := load_geometry_mesh_cache (fun _ => [("bunny", ⟨7⟩)]) "scenes"
    [("scenes/a.obj", [("bunny", ⟨3⟩)])]
    (JValue.obj [("type", JValue.str "mesh"), ("file", JValue.str "a.obj"),
      ("model", JValue.str "bunny")]) "a.obj" "bunny" "scenes/a.obj"
    (by simp [JValue.find, JValue.lookupField, JValue.as_string])
    (by simp [JValue.find, JValue.lookupField, JValue.as_string])
    (by simp [JValue.find, JValue.lookupField, JValue.as_string])
    (by simp only [is_relative, path_join]; decide)
  have hmiss := load_geometry_mesh_cache (fun _ => [("bunny", ⟨7⟩)]) "scenes" []
    (JValue.obj [("type", JValue.str "mesh"), ("file", JValue.str "a.obj"),
      ("model", JValue.str "bunny")]) "a.obj" "bunny" "scenes/a.obj"
    (by simp [JValue.find, JValue.lookupField, JValue.as_string])
    (by simp [JValue.find, JValue.lookupField, JValue.as_string])
    (by simp [JValue.find, JValue.lookupField, JValue.as_string])
    (by simp only [is_relative, path_join]; decide)
  have hnomodel := load_geometry_mesh_cache (fun _ => [("bunny", ⟨7⟩)]) "scenes"
    [("scenes/a.obj", [("bunny", ⟨3⟩)])]
    (JValue.obj [("type", JValue.str "mesh"), ("file", JValue.str "a.obj"),
      ("model", JValue.str "dragon")]) "a.obj" "dragon" "scenes/a.obj"
    (by simp [JValue.find, JValue.lookupField, JValue.as_string])
    (by simp [JValue.find, JValue.lookupField, JValue.as_string])
    (by simp [JValue.find, JValue.lookupField, JValue.as_string])
    (by simp only [is_relative, path_join]; decide)
  refine ⟨?_, ?_, ?_⟩
  · have := (hbase.1 [("bunny", ⟨3⟩)] (by simp [lookupKey])).1 ⟨3⟩ (by simp [lookupKey])
    exact this
  · have := (hmiss.2 (by simp [lookupKey])).1 ⟨7⟩ (by simp [lookupKey])
    simpa [insertKey] using this
  · exact (hnomodel.1 [("bunny", ⟨3⟩)] (by simp [lookupKey])).2 (by simp [lookupKey])

/-- C8: a point emitter is built from the literal position field, the
emission color and the name only: the loaded instance is exactly
`Instance::point_light(pos, emission, name)` — the conclusion does not
mention the object's parsed transform `T`, and the instance's payload has
no geometry or material. -/
theorem load_objects_point_light (fs : ObjFs) (path : String)
    (materials : List (String × Material)) (o : JValue) (os : List JValue)
    (cache : MeshCache) (name : String) (pos : Point) (em : AnimatedColor)
    (T : AnimatedTransform) (emv posv : JValue)
    (hname : o.find "name" = some (.str name))
    (hty : o.find "type" = some (.str "emitter"))
    (hT : object_transform o name = .ok T)
    (hety : o.find "emitter" = some (.str "point"))
    (hemf : o.find "emission" = some emv)
    (hem : load_animated_color emv = .ok (some em))
    (hposf : o.find "position" = some posv)
    (hpos : load_point posv = some pos) :
    load_objects_list fs path materials (o :: os) cache
      = (do
          let rest ← load_objects_list fs path materials os cache
          pure (Instance.point_light pos em name :: rest.1, rest.2)) ∧
    (Instance.point_light pos em name).kind = InstKind.pointLight pos em := by
  constructor
  · conv_lhs => rw [load_objects_list]
    simp [hname, hty, hT, hety, hemf, hem, hposf, hpos, orError,
      JValue.as_string, Bind.bind, Except.bind, pure, Except.pure]
  · rfl

/-- C8 witness: a point emitter carrying a non-trivial transform field
still loads as exactly the point light of its position, emission and
name. -/
theorem load_objects_point_light_witness :
    load_objects_list (fun _ => []) "scenes" []
      [JValue.obj [("name", JValue.str "L"), ("type", JValue.str "emitter"),
        ("transform", JValue.arr [JValue.obj [("type", JValue.str "translate"),
          ("translation", JValue.arr [JValue.num 1, JValue.num 2, JValue.num 3])]]),
        ("emitter", JValue.str "point"),
        ("position", JValue.arr [JValue.num 4, JValue.num 5, JValue.num 6]),
        ("emission", JValue.arr [JValue.num 1, JValue.num 1, JValue.num 1])]] []
      = (do
          let rest ← load_objects_list (fun _ => []) "scenes" [] [] []
          pure (Instance.point_light (Point.new 4 5 6)
            (AnimatedColor.with_keyframes [ColorKeyframe.new (Colorf.new 1 1 1) 0]) "L"
              :: rest.1, rest.2)) ∧
    (Instance.point_light (Point.new 4 5 6)
      (AnimatedColor.with_keyframes [ColorKeyframe.new (Colorf.new 1 1 1) 0]) "L").kind
      = InstKind.pointLight (Point.new 4 5 6)
          (AnimatedColor.with_keyframes [ColorKeyframe.new (Colorf.new 1 1 1) 0]) :=
  load_objects_point_light (fun _ => []) "scenes" []
    (JValue.obj [("name", JValue.str "L"), ("type", JValue.str "emitter"),
      ("transform", JValue.arr [JValue.obj [("type", JValue.str "translate"),
        ("translation", JValue.arr [JValue.num 1, JValue.num 2, JValue.num 3])]]),
      ("emitter", JValue.str "point"),
      ("position", JValue.arr [JValue.num 4, JValue.num 5, JValue.num 6]),
      ("emission", JValue.arr [JValue.num 1, JValue.num 1, JValue.num 1])])
    [] [] "L" (Point.new 4 5 6)
    (AnimatedColor.with_keyframes [ColorKeyframe.new (Colorf.new 1 1 1) 0])
    (AnimatedTransform.with_keyframes [Keyframe.new
      (Transform.comp (Transform.translate (Vector.new 1 2 3)) Transform.identity) 0])
    (JValue.arr [JValue.num 1, JValue.num 1, JValue.num 1])
    (JValue.arr [JValue.num 4, JValue.num 5, JValue.num 6])
    (by simp [JValue.find, JValue.lookupField])
    (by simp [JValue.find, JValue.lookupField])
    (by simp [object_transform, JValue.find, JValue.lookupField, load_transform,
      load_transform_go, load_vector, JValue.as_array, JValue.as_string, JValue.as_f64,
      orError, Bind.bind, Except.bind, pure, Except.pure, Vector.new, Keyframe.new,
      HMul.hMul, Mul.mul])
    (by simp [JValue.find, JValue.lookupField])
    (by simp [JValue.find, JValue.lookupField])
    (by simp [load_animated_color, load_color, JValue.as_array, JValue.is_number,
      JValue.as_f64, orError, Bind.bind, Except.bind, pure, Except.pure,
      AnimatedColor.with_keyframes, ColorKeyframe.new, Colorf.new])
    (by simp [JValue.find, JValue.lookupField])
    (by simp [load_point, JValue.as_array, JValue.as_f64, Point.new])

/-- C5: a group contributes exactly its recursively loaded children, each
with the group transform pre-multiplied onto the child's original
transform, and contributes no node of its own (the `Instance` type has no
group variant; the group's result is the mapped child list spliced in). -/
theorem load_objects_group (fs : ObjFs) (path : String)
    (materials : List (String × Material)) (o : JValue) (os gos : List JValue)
    (cache cache₁ : MeshCache) (name : String) (T : AnimatedTransform)
    (gis : List Instance)
    (hname : o.find "name" = some (.str name))
    (hty : o.find "type" = some (.str "group"))
    (hT : object_transform o name = .ok T)
    (hobjs : o.find "objects" = some (.arr gos))
    (hrec : load_objects_list fs path materials gos cache = .ok (gis, cache₁)) :
    load_objects_list fs path materials (o :: os) cache
      = (do
          let rest ← load_objects_list fs path materials os cache₁
          pure ((gis.map fun gi => gi.set_transform (T * gi.get_transform)) ++ rest.1,
            rest.2)) ∧
    (∀ gi ∈ gis, (gi.set_transform (T * gi.get_transform)).transform
      = T * gi.get_transform) := by
  constructor
  · conv_lhs => rw [load_objects_list]
    simp only [hname, hty, hT, orError, JValue.as_string, Bind.bind, Except.bind,
      pure, Except.pure]
    rw [if_neg (by decide : ¬ ("group" : String) = "emitter"),
        if_neg (by decide : ¬ ("group" : String) = "receiver")]
    simp only [if_true]
    split
    · rename_i heq
      rw [hobjs] at heq
      simp at heq
    · rename_i group_objects heq
      rw [hobjs] at heq
      have hg : group_objects = JValue.arr gos := by simpa using heq.symm
      subst hg
      split
      · rename_i gos2 ha hb harr hheq
        injection harr with hg2
        subst hg2
        rw [hrec]
      · rw [hrec]
  · intro gi _
    rfl

/-- C5 witness: a group holding one point light; the child is loaded with
the group transform composed onto its own transform and no group node
appears. -/
theorem load_objects_group_witness :
    load_objects_list (fun _ => []) "scenes" []
      [JValue.obj [("name", JValue.str "G"), ("type", JValue.str "group"),
        ("transform", JValue.arr []),
        ("objects", JValue.arr [JValue.obj [("name", JValue.str "P"),
          ("type", JValue.str "emitter"), ("transform", JValue.arr []),
          ("emitter", JValue.str "point"),
          ("position", JValue.arr [JValue.num 0, JValue.num 0, JValue.num 1]),
          ("emission", JValue.arr [JValue.num 1, JValue.num 1, JValue.num 1])]])]] []
      = (do
          let rest ← load_objects_list (fun _ => []) "scenes" [] [] []
          pure (([Instance.point_light (Point.new 0 0 1)
              (AnimatedColor.with_keyframes [ColorKeyframe.new (Colorf.new 1 1 1) 0]) "P"].map
              fun gi => gi.set_transform
                (AnimatedTransform.with_keyframes [Keyframe.new Transform.identity 0]
                  * gi.get_transform)) ++ rest.1,
            rest.2)) ∧
    (∀ gi ∈ [Instance.point_light (Point.new 0 0 1)
        (AnimatedColor.with_keyframes [ColorKeyframe.new (Colorf.new 1 1 1) 0]) "P"],
      (gi.set_transform
        (AnimatedTransform.with_keyframes [Keyframe.new Transform.identity 0]
          * gi.get_transform)).transform
        = AnimatedTransform.with_keyframes [Keyframe.new Transform.identity 0]
          * gi.get_transform) :=
  load_objects_group (fun _ => []) "scenes" []
    (JValue.obj [("name", JValue.str "G"), ("type", JValue.str "group"),
      ("transform", JValue.arr []),
      ("objects", JValue.arr [JValue.obj [("name", JValue.str "P"),
        ("type", JValue.str "emitter"), ("transform", JValue.arr []),
        ("emitter", JValue.str "point"),
        ("position", JValue.arr [JValue.num 0, JValue.num 0, JValue.num 1]),
        ("emission", JValue.arr [JValue.num 1, JValue.num 1, JValue.num 1])]])])
    [] [JValue.obj [("name", JValue.str "P"),
      ("type", JValue.str "emitter"), ("transform", JValue.arr []),
      ("emitter", JValue.str "point"),
      ("position", JValue.arr [JValue.num 0, JValue.num 0, JValue.num 1]),
      ("emission", JValue.arr [JValue.num 1, JValue.num 1, JValue.num 1])]]
    [] [] "G"
    (AnimatedTransform.with_keyframes [Keyframe.new Transform.identity 0])
    [Instance.point_light (Point.new 0 0 1)
      (AnimatedColor.with_keyframes [ColorKeyframe.new (Colorf.new 1 1 1) 0]) "P"]
    (by simp [JValue.find, JValue.lookupField])
    (by simp [JValue.find, JValue.lookupField])
    (by simp [object_transform, JValue.find, JValue.lookupField, load_transform,
      load_transform_go, JValue.as_array, orError, Bind.bind, Except.bind, pure,
      Except.pure, Keyframe.new])
    (by simp [JValue.find, JValue.lookupField])
    (by simp [load_objects_list, object_transform, load_keyframes, load_transform,
      load_transform_go, load_animated_color, load_color, load_point, orError,
      JValue.find, JValue.lookupField, JValue.as_string, JValue.as_f64, JValue.as_array,
      JValue.is_number, Instance.point_light, AnimatedColor.with_keyframes,
      ColorKeyframe.new, Colorf.new, Point.new, Keyframe.new, Bind.bind, Except.bind,
      pure, Except.pure])

theorem material_name_ok {i : Nat} {m : JValue} {name : String}
    (h : material_name i m = .ok name) : parsed_name m = some name := by
  unfold material_name at h
  obtain ⟨nv, h1, h2⟩ := except_bind_ok h
  have h1x := orError_ok h1
  have h2x := orError_ok h2
  simp [parsed_name, h1x, h2x]

theorem parsed_name_unique {m : JValue} {a b : String}
    (ha : parsed_name m = some a) (hb : parsed_name m = some b) : a = b := by
  rw [ha] at hb
  simpa using hb

theorem lookupKey_append_some {β : Type} {a b : List (String × β)} {k : String} {v : β}
    (h : lookupKey a k = some v) : lookupKey (a ++ b) k = some v := by
  induction a with
  | nil => simp [lookupKey] at h
  | cons kv rest ih =>
    obtain ⟨k1, v1⟩ := kv
    by_cases hk : k1 = k
    · simp [lookupKey, hk] at h ⊢
      exact h
    · simp [lookupKey, hk] at h ⊢
      exact ih h

theorem lookupKey_append_none {β : Type} {a : List (String × β)} {k : String}
    (h : lookupKey a k = none) (b : List (String × β)) :
    lookupKey (a ++ b) k = lookupKey b k := by
  induction a with
  | nil => simp
  | cons kv rest ih =>
    obtain ⟨k1, v1⟩ := kv
    by_cases hk : k1 = k
    · simp [lookupKey, hk] at h
    · simp [lookupKey, hk] at h ⊢
      exact ih h

theorem lookupKey_insert_self {β : Type} {acc : List (String × β)} {name : String}
    {v : β} (h : lookupKey acc name = none) :
    lookupKey (insertKey acc name v) name = some v := by
  unfold insertKey
  rw [lookupKey_append_none h]
  simp [lookupKey]

theorem load_materials_go_ok (path : String) :
    ∀ (l : List JValue) (i : Nat) (acc ms : List (String × Material)),
    load_materials_go path i acc l = .ok ms →
    (∀ k v, lookupKey acc k = some v → lookupKey ms k = some v) ∧
    (∀ m ∈ l, ∃ name ty mat, parsed_name m = some name ∧
      (m.find "type").bind JValue.as_string = some ty ∧
      load_material_entry path name ty m = .ok mat ∧
      lookupKey ms name = some mat) ∧
    (∀ m ∈ l, ∀ n, parsed_name m = some n → lookupKey acc n = none) ∧
    (l.filterMap parsed_name).Nodup := by
  intro l
  induction l with
  | nil =>
    intro i acc ms h
    simp only [load_materials_go, pure, Except.pure, Except.ok.injEq] at h
    subst h
    refine ⟨fun k v hv => hv, by simp, by simp, by simp⟩
  | cons m rest ih =>
    intro i acc ms h
    rw [load_materials_go] at h
    obtain ⟨name, hn, h⟩ := except_bind_ok h
    obtain ⟨tyv, htv, h⟩ := except_bind_ok h
    obtain ⟨ty, hty, h⟩ := except_bind_ok h
    split at h
    · simp at h
    · rename_i hfresh
      obtain ⟨mat, hmat, h⟩ := except_bind_ok h
      have hfresh2 : lookupKey acc name = none := by
        cases hx : lookupKey acc name with
        | none => rfl
        | some w => rw [hx] at hfresh; simp at hfresh
      have hres := ih (i + 1) (insertKey acc name mat) ms h
      have hpn : parsed_name m = some name := material_name_ok hn
      have htyv : (m.find "type").bind JValue.as_string = some ty := by
        have h1 := orError_ok htv
        have h2 := orError_ok hty
        simp [h1, h2]
      have hmem : lookupKey ms name = some mat :=
        hres.1 name mat (lookupKey_insert_self hfresh2)
      refine ⟨?_, ?_, ?_, ?_⟩
      · intro k v hv
        exact hres.1 k v (lookupKey_append_some hv)
      · intro m2 hm2
        rcases List.mem_cons.mp hm2 with hm2 | hm2
        · subst hm2
          exact ⟨name, ty, mat, hpn, htyv, hmat, hmem⟩
        · exact hres.2.1 m2 hm2
      · intro m2 hm2 n hpn2
        rcases List.mem_cons.mp hm2 with hm2 | hm2
        · subst hm2
          have hn2 : n = name := parsed_name_unique hpn2 hpn
          rw [hn2]
          exact hfresh2
        · have hnone := hres.2.2.1 m2 hm2 n hpn2
          cases hx : lookupKey acc n with
          | none => rfl
          | some w =>
            have := @lookupKey_append_some Material acc [(name, mat)] n w hx
            rw [show acc ++ [(name, mat)] = insertKey acc name mat from rfl] at this
            rw [hnone] at this
            simp at this
      · have hfm : (m :: rest).filterMap parsed_name
            = name :: rest.filterMap parsed_name := by
          simp [List.filterMap_cons, hpn]
        rw [hfm]
        refine List.nodup_cons.mpr ⟨?_, hres.2.2.2⟩
        intro hmemname
        obtain ⟨m2, hm2, hpn2⟩ := List.mem_filterMap.mp hmemname
        have hnone := hres.2.2.1 m2 hm2 name hpn2
        rw [lookupKey_insert_self hfresh2] at hnone
        simp at hnone

/-- C6: `load_materials` produces the materials keyed by unique name:
whenever it succeeds, every listed entry parses and appears in the
resulting collection under its parsed name with exactly the material
built from it, and the parsed names are pairwise distinct — an input with
two materials sharing a name can therefore only fail fatally, never
overwrite. -/
theorem load_materials_keyed (path : String) (l : List JValue)
    (ms : List (String × Material))
    (h : load_materials path (.arr l) = .ok ms) :
    (∀ m ∈ l, ∃ name ty mat, parsed_name m = some name ∧
      (m.find "type").bind JValue.as_string = some ty ∧
      load_material_entry path name ty m = .ok mat ∧
      lookupKey ms name = some mat) ∧
    (l.filterMap parsed_name).Nodup := by
  unfold load_materials at h
  obtain ⟨lv, h1, h⟩ := except_bind_ok h
  have h1x := orError_ok h1
  simp only [JValue.as_array, Option.some.injEq] at h1x
  subst h1x
  have hres := load_materials_go_ok path l 0 [] ms h
  exact ⟨hres.2.1, hres.2.2.2⟩

/-- C6 witness: two distinct materials (a matte and a glass) load, each
retrievable under its own name, with distinct names. -/
theorem load_materials_keyed_witness :
    load_materials "scenes"
      (JValue.arr [JValue.obj [("name", JValue.str "red"), ("type", JValue.str "matte"),
          ("diffuse", JValue.arr [JValue.num 1, JValue.num 0, JValue.num 0]),
          ("roughness", JValue.num 1)],
        JValue.obj [("name", JValue.str "g"), ("type", JValue.str "glass"),
          ("reflect", JValue.arr [JValue.num 1, JValue.num 1, JValue.num 1]),
          ("transmit", JValue.arr [JValue.num 1, JValue.num 1, JValue.num 1]),
          ("eta", JValue.num (3/2))]])
      = .ok [("red", Material.matte (Colorf.new 1 0 0) 1),
             ("g", Material.glass (Glass.new (Colorf.new 1 1 1) (Colorf.new 1 1 1) (3/2)))] ∧
    (∀ m ∈ [JValue.obj [("name", JValue.str "red"), ("type", JValue.str "matte"),
          ("diffuse", JValue.arr [JValue.num 1, JValue.num 0, JValue.num 0]),
          ("roughness", JValue.num 1)],
        JValue.obj [("name", JValue.str "g"), ("type", JValue.str "glass"),
          ("reflect", JValue.arr [JValue.num 1, JValue.num 1, JValue.num 1]),
          ("transmit", JValue.arr [JValue.num 1, JValue.num 1, JValue.num 1]),
          ("eta", JValue.num (3/2))]],
      ∃ name ty mat, parsed_name m = some name ∧
        (m.find "type").bind JValue.as_string = some ty ∧
        load_material_entry "scenes" name ty m = .ok mat ∧
        lookupKey [("red", Material.matte (Colorf.new 1 0 0) 1),
          ("g", Material.glass (Glass.new (Colorf.new 1 1 1) (Colorf.new 1 1 1) (3/2)))]
          name = some mat) ∧
    ([JValue.obj [("name", JValue.str "red"), ("type", JValue.str "matte"),
          ("diffuse", JValue.arr [JValue.num 1, JValue.num 0, JValue.num 0]),
          ("roughness", JValue.num 1)],
        JValue.obj [("name", JValue.str "g"), ("type", JValue.str "glass"),
          ("reflect", JValue.arr [JValue.num 1, JValue.num 1, JValue.num 1]),
          ("transmit", JValue.arr [JValue.num 1, JValue.num 1, JValue.num 1]),
          ("eta", JValue.num (3/2))]].filterMap parsed_name).Nodup := by
  have h : load_materials "scenes"
      (JValue.arr [JValue.obj [("name", JValue.str "red"), ("type", JValue.str "matte"),
          ("diffuse", JValue.arr [JValue.num 1, JValue.num 0, JValue.num 0]),
          ("roughness", JValue.num 1)],
        JValue.obj [("name", JValue.str "g"), ("type", JValue.str "glass"),
          ("reflect", JValue.arr [JValue.num 1, JValue.num 1, JValue.num 1]),
          ("transmit", JValue.arr [JValue.num 1, JValue.num 1, JValue.num 1]),
          ("eta", JValue.num (3/2))]])
      = .ok [("red", Material.matte (Colorf.new 1 0 0) 1),
             ("g", Material.glass (Glass.new (Colorf.new 1 1 1) (Colorf.new 1 1 1) (3/2)))] := by
    simp [load_materials, load_materials_go, material_name, load_material_entry,
      load_color, lookupKey, insertKey, orError, JValue.find, JValue.lookupField,
      JValue.as_string, JValue.as_f64, JValue.as_array, Colorf.new,
      Bind.bind, Except.bind, pure, Except.pure]
  have hk := load_materials_keyed "scenes" _ _ h
  exact ⟨h, hk.1, hk.2⟩
